import Mathlib

/-!
Verification of the fraud-risk scoring pipeline of the AI payment
microservice (`ai-service/services/fraud_detection_service.py`).

The pipeline is embedded shallowly over exact rational arithmetic:

* `TransactionInput` models the arguments of `analyze_transaction`
  (the geolocation argument is kept as an optional string-keyed map so
  that Python dictionary truthiness and `dict.get` defaulting are
  preserved exactly);
* `ServiceEnv` packages the process-lifetime state the Python object
  carries: readiness flags, the fitted scaler / isolation-forest /
  random-forest models (opaque, hence modelled as fallible oracles on
  feature vectors), the counter store, the wall clock, and the two
  uniform random draws used as placeholder features;
* each Python method becomes a Lean function of the same name; the
  `try/except` at the `analyze_transaction` boundary becomes an
  `Except` core plus a total wrapper returning the fixed default
  assessment on error.  The division by `abs(offset_)` raises
  `ZeroDivisionError` in Python when the offset is zero, so the
  normalisation step is fallible as well.
-/

namespace FraudDetection

/-- Optional device descriptor: flags read via `device_info.get(flag, False)`. -/
structure DeviceInfo where
  is_mobile : Bool
  is_tor : Bool
  is_vpn : Bool
deriving DecidableEq

/-- The per-request arguments of `analyze_transaction`.  `location` is an
optional string-keyed map of coordinates (`lat` / `lng` may each be absent,
mirroring the Python dictionary). -/
structure TransactionInput where
  transaction_id : Option String
  user_id : String
  amount : ℚ
  currency : String
  location : Option (List (String × ℚ))
  device_info : Option DeviceInfo

/-- Python `d.get(k, default)` on a string-keyed rational map: the value at
the first matching key, or the default. -/
def dictGetD (d : List (String × ℚ)) (k : String) (default : ℚ) : ℚ :=
  match d with
  | [] => default
  | p :: rest => if p.1 == k then p.2 else dictGetD rest k default

/-- Process-lifetime service state plus the per-request ambient inputs
(wall clock, random draws, counter-store contents).  The fitted models are
opaque, so their inference calls are arbitrary fallible functions of the
scaled feature vector. -/
structure ServiceEnv where
  isInitialized : Bool
  hasIsolationForest : Bool
  scalerTransform : List ℚ → Except String (List ℚ)
  decisionFunction : List ℚ → Except String ℚ
  offset : ℚ
  predictProba : List ℚ → Except String ℚ
  freqStore : String → Except String (Option ℤ)
  hour : ℕ
  day_of_week : ℕ
  rand1 : ℚ
  rand2 : ℚ

/-- `is_ready`: the service is initialised and the isolation forest is loaded. -/
def is_ready (env : ServiceEnv) : Bool :=
  env.isInitialized && env.hasIsolationForest

/-- `_calculate_frequency_risk`: tiered risk from the user's cached
transaction count; a missing counter defaults to a count of 5, and any
storage failure is caught locally and yields 0.5. -/
def _calculate_frequency_risk (env : ServiceEnv) (user_id : String) : ℚ :=
  match env.freqStore user_id with
  | .error _ => 0.5
  | .ok recent_transactions =>
    let transaction_count : ℤ :=
      match recent_transactions with
      | some c => c
      | none => 5
    if transaction_count < 3 then 0.8
    else if transaction_count < 10 then 0.4
    else 0.2

/-- The location-risk computation inside `_extract_features`: starts at the
0.5 default, overwritten only when the geolocation map is truthy
(non-empty), with each missing coordinate defaulting to 0. -/
def location_risk (location : Option (List (String × ℚ))) : ℚ :=
  match location with
  | none => 0.5
  | some loc =>
    if loc.isEmpty then 0.5
    else |dictGetD loc "lat" 0| + |dictGetD loc "lng" 0| / 180

/-- The device-risk accumulation inside `_extract_features` before the final
cap at 1.0: baseline 0.5, +0.1 mobile, +0.3 Tor, +0.2 VPN. -/
def device_risk (device_info : Option DeviceInfo) : ℚ :=
  match device_info with
  | none => 0.5
  | some d =>
    let r : ℚ := 0.5
    let r := if d.is_mobile then r + 0.1 else r
    let r := if d.is_tor then r + 0.3 else r
    if d.is_vpn then r + 0.2 else r

/-- `_extract_features`: the 8-slot feature vector
`[normalized_amount, hour/24, day_of_week/7, location_risk,
  min device_risk 1, frequency_risk, rand1, rand2]`. -/
def _extract_features (env : ServiceEnv) (t : TransactionInput) : List ℚ :=
  let amount_normalized := min (t.amount / 10000) 1
  [amount_normalized,
   (env.hour : ℚ) / 24,
   (env.day_of_week : ℚ) / 7,
   location_risk t.location,
   min (device_risk t.device_info) 1,
   _calculate_frequency_risk env t.user_id,
   env.rand1,
   env.rand2]

/-- The configured tier thresholds (`fraud_thresholds` dictionary). -/
def fraud_thresholds_medium : ℚ := 0.6

/-- The configured "high" tier threshold. -/
def fraud_thresholds_high : ℚ := 0.8

/-- `_determine_risk_level`: inclusive-lower-bound step function of the
combined score. -/
def _determine_risk_level (fraud_score : ℚ) : String :=
  if fraud_score ≥ fraud_thresholds_high then "high"
  else if fraud_score ≥ fraud_thresholds_medium then "medium"
  else "low"

/-- `_generate_fraud_reasons`: appends each applicable reason in source
order, falling back to a single standard reason when none apply. -/
def _generate_fraud_reasons (features : List ℚ) (anomaly_score : ℚ)
    (fraud_probability : ℚ) : List String :=
  let reasons : List String := []
  let amount := features.getD 0 0 * 10000
  let reasons := if amount > 5000 then reasons ++ ["High transaction amount"] else reasons
  let hour := features.getD 1 0 * 24
  let reasons := if hour < 6 ∨ hour > 22 then reasons ++ ["Unusual transaction time"] else reasons
  let reasons := if features.getD 3 0 > 0.8 then reasons ++ ["High-risk location"] else reasons
  let reasons := if features.getD 4 0 > 0.7 then reasons ++ ["Suspicious device characteristics"] else reasons
  let reasons := if features.getD 5 0 > 0.7 then reasons ++ ["Unusual transaction frequency"] else reasons
  let reasons := if anomaly_score > 0.7 then reasons ++ ["Transaction pattern anomaly detected"] else reasons
  let reasons := if fraud_probability > 0.6 then reasons ++ ["High fraud probability based on historical data"] else reasons
  if reasons.isEmpty then ["Standard risk assessment"] else reasons

/-- `_generate_recommendation`: fixed action string per tier. -/
def _generate_recommendation (risk_level : String) : String :=
  if risk_level == "high" then "Block transaction and require manual review"
  else if risk_level == "medium" then "Require additional verification (2FA, SMS)"
  else "Approve transaction with standard monitoring"

/-- The externally visible result of `analyze_transaction`. -/
structure FraudAssessment where
  fraud_score : ℚ
  risk_level : String
  reasons : List String
  recommendation : String
  confidence : ℚ
deriving DecidableEq

/-- The fixed fallback assessment returned by the `except` branch of
`analyze_transaction`. -/
def default_assessment : FraudAssessment :=
  ⟨0.5, "medium", ["Unable to analyze transaction"], "Manual review recommended", 0⟩

/-- The scoring step of `analyze_transaction`: scale the features, run the
isolation forest's decision function, normalise by the fitted offset
(raising on a zero offset, as Python float division does), clamp to [0,1],
and run the random forest's probability head. -/
def score_features (env : ServiceEnv) (features : List ℚ) : Except String (ℚ × ℚ) :=
  match env.scalerTransform features with
  | .error e => .error e
  | .ok features_scaled =>
    match env.decisionFunction features_scaled with
    | .error e => .error e
    | .ok raw =>
      if env.offset = 0 then .error "ZeroDivisionError"
      else
        let anomaly_score := max 0 (min 1 ((raw - env.offset) / |env.offset|))
        match env.predictProba features_scaled with
        | .error e => .error e
        | .ok fraud_probability => .ok (anomaly_score, fraud_probability)

/-- The `try` body of `analyze_transaction`: readiness check, feature
extraction, scoring, fusion, tiering, reasons and recommendation.  The
result-caching call catches its own exceptions in the source, so it has no
effect on the returned value and is omitted from the value-level model. -/
def analyze_transaction_core (env : ServiceEnv) (t : TransactionInput) :
    Except String FraudAssessment :=
  if is_ready env then
    let features := _extract_features env t
    match score_features env features with
    | .error e => .error e
    | .ok (anomaly_score, fraud_probability) =>
      let combined_score := anomaly_score * 0.4 + fraud_probability * 0.6
      let risk_level := _determine_risk_level combined_score
      let reasons := _generate_fraud_reasons features anomaly_score fraud_probability
      let recommendation := _generate_recommendation risk_level
      .ok ⟨combined_score, risk_level, reasons, recommendation,
           max anomaly_score fraud_probability⟩
  else .error "Fraud detection service not ready"

/-- `analyze_transaction`: the `try/except` wrapper — any error inside the
core yields the fixed default assessment instead of propagating. -/
def analyze_transaction (env : ServiceEnv) (t : TransactionInput) : FraudAssessment :=
  match analyze_transaction_core env t with
  | .ok r => r
  | .error _ => default_assessment

/-- Rank of a tier name, for stating monotonicity of the tiering step. -/
def risk_rank (level : String) : ℕ :=
  if level == "low" then 0 else if level == "medium" then 1 else 2

/-- A benign concrete transaction used to instantiate hypotheses. -/
def baseT : TransactionInput :=
  ⟨some "tx1", "u1", 100, "USD", none, none⟩

/-- A concrete healthy environment: identity scaler, constant model
outputs, empty counter store, midday clock. -/
def baseEnv : ServiceEnv :=
  ⟨true, true, fun f => .ok f, fun _ => .ok 0, 1, fun _ => .ok (1/2),
   fun _ => .ok none, 12, 3, 0, 0⟩

/-- An environment that fails the readiness check. -/
def errEnv : ServiceEnv :=
  ⟨false, true, fun f => .ok f, fun _ => .ok 0, 1, fun _ => .ok (1/2),
   fun _ => .ok none, 12, 3, 0, 0⟩

/-- A healthy environment whose counter store returns `r`. -/
def freqEnv (r : Except String (Option ℤ)) : ServiceEnv :=
  ⟨true, true, fun f => .ok f, fun _ => .ok 0, 1, fun _ => .ok (1/2),
   fun _ => r, 12, 3, 0, 0⟩

/-- Claim C1: whenever the scoring step of a successful analysis produces
anomaly score `a` and classifier probability `p`, the returned fraud score
is exactly `0.4 * a + 0.6 * p`. -/
theorem analyze_fraud_score_blend (env : ServiceEnv) (t : TransactionInput)
    (a p : ℚ) (hready : is_ready env = true)
    (hscore : score_features env (_extract_features env t) = .ok (a, p)) :
    (analyze_transaction env t).fraud_score = 0.4 * a + 0.6 * p := by
  simp only [analyze_transaction, analyze_transaction_core, hready, if_true, hscore]
  ring

/-- Concrete instantiation of C1: in `baseEnv` the scoring step returns
`(0, 1/2)` and the fraud score is the corresponding blend. -/
theorem analyze_fraud_score_blend_witness :
    (analyze_transaction baseEnv baseT).fraud_score = 0.4 * 0 + 0.6 * (1/2) := by
  have hready : is_ready baseEnv = true := rfl
  have hscore : score_features baseEnv (_extract_features baseEnv baseT) = .ok (0, 1/2) := by
    norm_num [score_features, baseEnv, baseT, _extract_features,
      _calculate_frequency_risk, location_risk, device_risk]
  exact analyze_fraud_score_blend baseEnv baseT 0 (1/2) hready hscore

/-- Claim C2: risk-tier determination is an inclusive-lower-boundary step
function of the score — `0.8 ≤ s` gives "high", `0.6 ≤ s < 0.8` gives
"medium", `s < 0.6` gives "low" — and it is monotone in the score. -/
theorem determine_risk_level_step (s t : ℚ) :
    (0.8 ≤ s → _determine_risk_level s = "high") ∧
    (0.6 ≤ s ∧ s < 0.8 → _determine_risk_level s = "medium") ∧
    (s < 0.6 → _determine_risk_level s = "low") ∧
    (s ≤ t → risk_rank (_determine_risk_level s) ≤ risk_rank (_determine_risk_level t)) := by
  simp only [_determine_risk_level, fraud_thresholds_high, fraud_thresholds_medium, ge_iff_le]
  refine ⟨fun h => ?_, fun h => ?_, fun h => ?_, fun h => ?_⟩
  · rw [if_pos h]
  · rw [if_neg (by linarith [h.2]), if_pos h.1]
  · rw [if_neg (by linarith), if_neg (by linarith)]
  · split_ifs <;> simp [risk_rank] <;> linarith

/-- Concrete instantiation of C2 at the boundaries 0.8 and 0.6 and at an
interior low score, plus one monotonicity instance. -/
theorem determine_risk_level_step_witness :
    _determine_risk_level 0.8 = "high" ∧ _determine_risk_level 0.6 = "medium" ∧
    _determine_risk_level 0.3 = "low" ∧
    risk_rank (_determine_risk_level 0.6) ≤ risk_rank (_determine_risk_level 0.9) :=
  ⟨(determine_risk_level_step 0.8 0.8).1 (by norm_num),
   (determine_risk_level_step 0.6 0.6).2.1 (by norm_num),
   (determine_risk_level_step 0.3 0.3).2.2.1 (by norm_num),
   (determine_risk_level_step 0.6 0.9).2.2.2 (by norm_num)⟩

/-- Claim C3: if any error occurs inside the analysis body, the caller
receives exactly the fixed default assessment instead of an exception. -/
theorem analyze_error_returns_default (env : ServiceEnv) (t : TransactionInput)
    (e : String) (h : analyze_transaction_core env t = .error e) :
    analyze_transaction env t =
      ⟨0.5, "medium", ["Unable to analyze transaction"], "Manual review recommended", 0⟩ := by
  simp [analyze_transaction, h, default_assessment]

/-- Concrete instantiation of C3: an uninitialised service yields the
default assessment. -/
theorem analyze_error_returns_default_witness :
    analyze_transaction errEnv baseT =
      ⟨0.5, "medium", ["Unable to analyze transaction"], "Manual review recommended", 0⟩ :=
  analyze_error_returns_default errEnv baseT "Fraud detection service not ready" rfl

/-- Claim C5: frequency risk is 0.8 for counts below 3, 0.4 for counts in
[3, 10), 0.2 for counts of at least 10, 0.4 when no counter is found
(count assumed 5), and 0.5 when the store access fails. -/
theorem calculate_frequency_risk_cases (env : ServiceEnv) (u : String) :
    (∀ c : ℤ, env.freqStore u = .ok (some c) →
       ((c < 3 → _calculate_frequency_risk env u = 0.8) ∧
        (3 ≤ c ∧ c < 10 → _calculate_frequency_risk env u = 0.4) ∧
        (10 ≤ c → _calculate_frequency_risk env u = 0.2))) ∧
    (env.freqStore u = .ok none → _calculate_frequency_risk env u = 0.4) ∧
    (∀ e : String, env.freqStore u = .error e → _calculate_frequency_risk env u = 0.5) := by
  refine ⟨fun c hc => ?_, fun hn => ?_, fun e he => ?_⟩
  · refine ⟨fun h => ?_, fun h => ?_, fun h => ?_⟩
    · simp only [_calculate_frequency_risk, hc]
      rw [if_pos h]
    · simp only [_calculate_frequency_risk, hc]
      rw [if_neg (by omega), if_pos (by omega)]
    · simp only [_calculate_frequency_risk, hc]
      rw [if_neg (by omega), if_neg (by omega)]
  · simp [_calculate_frequency_risk, hn]
  · simp [_calculate_frequency_risk, he]

/-- Concrete instantiation of C5 at counts 2, 3, 9 and 10, at a missing
counter and at a failing store. -/
theorem calculate_frequency_risk_cases_witness :
    _calculate_frequency_risk (freqEnv (.ok (some 2))) "u" = 0.8 ∧
    _calculate_frequency_risk (freqEnv (.ok (some 3))) "u" = 0.4 ∧
    _calculate_frequency_risk (freqEnv (.ok (some 9))) "u" = 0.4 ∧
    _calculate_frequency_risk (freqEnv (.ok (some 10))) "u" = 0.2 ∧
    _calculate_frequency_risk (freqEnv (.ok none)) "u" = 0.4 ∧
    _calculate_frequency_risk (freqEnv (.error "down")) "u" = 0.5 :=
  ⟨((calculate_frequency_risk_cases (freqEnv (.ok (some 2))) "u").1 2 rfl).1 (by norm_num),
   ((calculate_frequency_risk_cases (freqEnv (.ok (some 3))) "u").1 3 rfl).2.1 (by norm_num),
   ((calculate_frequency_risk_cases (freqEnv (.ok (some 9))) "u").1 9 rfl).2.1 (by norm_num),
   ((calculate_frequency_risk_cases (freqEnv (.ok (some 10))) "u").1 10 rfl).2.2 (by norm_num),
   (calculate_frequency_risk_cases (freqEnv (.ok none)) "u").2.1 rfl,
   (calculate_frequency_risk_cases (freqEnv (.error "down")) "u").2.2 "down" rfl⟩

/-- A transaction at an extreme (but valid) latitude, showing the
location-risk slot escaping [0,1]. -/
def extremeT : TransactionInput :=
  ⟨some "tx2", "u1", 100, "USD", some [("lat", 80), ("lng", 0)], none⟩

/-- Device risk starts at the 0.5 baseline and only gains nonnegative
increments, so it is nonnegative. -/
lemma device_risk_nonneg (d : Option DeviceInfo) : 0 ≤ device_risk d := by
  cases d with
  | none => norm_num [device_risk]
  | some d =>
    simp only [device_risk]
    split_ifs <;> norm_num

/-- Frequency risk only takes the values 0.8, 0.4, 0.2 and 0.5, all in [0,1]. -/
lemma frequency_risk_bounds (env : ServiceEnv) (u : String) :
    0 ≤ _calculate_frequency_risk env u ∧ _calculate_frequency_risk env u ≤ 1 := by
  cases h : env.freqStore u with
  | error e => norm_num [_calculate_frequency_risk, h]
  | ok r =>
    cases r with
    | none => norm_num [_calculate_frequency_risk, h]
    | some c =>
      simp only [_calculate_frequency_risk, h]
      split_ifs <;> norm_num

/-- Location risk is a sum of absolute values (or the 0.5 default), hence
nonnegative. -/
lemma location_risk_nonneg (loc : Option (List (String × ℚ))) : 0 ≤ location_risk loc := by
  cases loc with
  | none => norm_num [location_risk]
  | some l =>
    simp only [location_risk]
    split_ifs
    · norm_num
    · positivity

/-- Counterexample to claim C4 as stated: at latitude 80 the fourth feature
(location risk) equals 80, far outside [0,1], while the vector still has
length 8. -/
theorem feature_bounds_cex :
    (_extract_features baseEnv extremeT).length = 8 ∧
    (_extract_features baseEnv extremeT).getD 3 0 = 80 ∧
    ¬ (_extract_features baseEnv extremeT).getD 3 0 ≤ 1 := by
  have hloc : location_risk (some [("lat", (80 : ℚ)), ("lng", 0)]) = 80 := by
    norm_num [location_risk, dictGetD]
    all_goals decide
  norm_num [_extract_features, baseEnv, extremeT, hloc,
    device_risk, _calculate_frequency_risk]

/-- Claim C4, amended: for a nonnegative amount, a valid wall clock and
placeholder draws in [0,1], the feature vector has length exactly 8 and
every slot except the location-risk slot (index 3) lies in [0,1]; the
location-risk slot is only guaranteed nonnegative and can exceed 1. -/
theorem feature_vector_shape (env : ServiceEnv) (t : TransactionInput)
    (hamount : 0 ≤ t.amount) (hhour : env.hour < 24) (hday : env.day_of_week < 7)
    (hr1 : 0 ≤ env.rand1 ∧ env.rand1 ≤ 1) (hr2 : 0 ≤ env.rand2 ∧ env.rand2 ≤ 1) :
    (_extract_features env t).length = 8 ∧
    (∀ i : Fin 8, i.val ≠ 3 →
       0 ≤ (_extract_features env t).getD i.val 0 ∧
       (_extract_features env t).getD i.val 0 ≤ 1) ∧
    0 ≤ (_extract_features env t).getD 3 0 := by
  have hhourq : (env.hour : ℚ) ≤ 23 := by exact_mod_cast Nat.lt_succ_iff.mp hhour
  have hdayq : (env.day_of_week : ℚ) ≤ 6 := by exact_mod_cast Nat.lt_succ_iff.mp hday
  have hhour0 : (0 : ℚ) ≤ (env.hour : ℚ) := by positivity
  have hday0 : (0 : ℚ) ≤ (env.day_of_week : ℚ) := by positivity
  have h24 : (env.hour : ℚ) / 24 ≤ 1 := by
    rw [div_le_one (by norm_num)]
    linarith
  have h7 : (env.day_of_week : ℚ) / 7 ≤ 1 := by
    rw [div_le_one (by norm_num)]
    linarith
  have hfreq := frequency_risk_bounds env t.user_id
  have hdev := device_risk_nonneg t.device_info
  have hloc := location_risk_nonneg t.location
  refine ⟨rfl, fun i hi => ?_, ?_⟩
  · fin_cases i
    · exact ⟨le_min (div_nonneg hamount (by norm_num)) zero_le_one, min_le_right _ _⟩
    · exact ⟨div_nonneg hhour0 (by norm_num), h24⟩
    · exact ⟨div_nonneg hday0 (by norm_num), h7⟩
    · exact absurd rfl hi
    · exact ⟨le_min hdev zero_le_one, min_le_right _ _⟩
    · exact hfreq
    · exact hr1
    · exact hr2
  · exact hloc

/-- Concrete instantiation of the amended C4 at the benign base input. -/
theorem feature_vector_shape_witness :
    (_extract_features baseEnv baseT).length = 8 ∧
    0 ≤ (_extract_features baseEnv baseT).getD 0 0 ∧
    (_extract_features baseEnv baseT).getD 0 0 ≤ 1 := by
  have h := feature_vector_shape baseEnv baseT (by norm_num [baseT])
    (by norm_num [baseEnv]) (by norm_num [baseEnv])
    (by norm_num [baseEnv]) (by norm_num [baseEnv])
  exact ⟨h.1, (h.2.1 0 (by norm_num)).1, (h.2.1 0 (by norm_num)).2⟩

/-- The reason rules exactly as the spec orders them: a concatenation of
optional singleton lists, one per rule, in the fixed order. -/
def spec_reason_rules (features : List ℚ) (a p : ℚ) : List String :=
  (if features.getD 0 0 * 10000 > 5000 then ["High transaction amount"] else []) ++
  (if features.getD 1 0 * 24 < 6 ∨ features.getD 1 0 * 24 > 22 then ["Unusual transaction time"] else []) ++
  (if features.getD 3 0 > 0.8 then ["High-risk location"] else []) ++
  (if features.getD 4 0 > 0.7 then ["Suspicious device characteristics"] else []) ++
  (if features.getD 5 0 > 0.7 then ["Unusual transaction frequency"] else []) ++
  (if a > 0.7 then ["Transaction pattern anomaly detected"] else []) ++
  (if p > 0.6 then ["High fraud probability based on historical data"] else [])

/-- The spec's reason list: every applicable rule in order, or the single
fallback reason when none apply. -/
def spec_reasons (features : List ℚ) (a p : ℚ) : List String :=
  if spec_reason_rules features a p = [] then ["Standard risk assessment"]
  else spec_reason_rules features a p

/-- Each accumulation step of the reason list appends an optional singleton
on the right. -/
lemma reasons_step (c : Prop) [inst : Decidable c] (acc spec : List String)
    (s : String) (h : acc = spec) :
    (if c then acc ++ [s] else acc) = spec ++ (if c then [s] else []) := by
  subst h
  split_ifs <;> simp

/-- Claim C6: the generated reason list is exactly the ordered list of
applicable reasons (with the single fallback when none apply), and on the
spec's concrete feature vector it is exactly the seven reasons in order. -/
theorem generate_fraud_reasons_ordered (features : List ℚ) (a p : ℚ) :
    _generate_fraud_reasons features a p = spec_reasons features a p ∧
    _generate_fraud_reasons [0.6, 0.125, 0.3, 0.9, 0.8, 0.8, 0.1, 0.1] 0.75 0.65 =
      ["High transaction amount", "Unusual transaction time", "High-risk location",
       "Suspicious device characteristics", "Unusual transaction frequency",
       "Transaction pattern anomaly detected",
       "High fraud probability based on historical data"] := by
  constructor
  · simp only [_generate_fraud_reasons, spec_reasons, spec_reason_rules]
    have e1 := reasons_step (features.getD 0 0 * 10000 > 5000) [] []
      "High transaction amount" rfl
    have e2 := reasons_step (features.getD 1 0 * 24 < 6 ∨ features.getD 1 0 * 24 > 22) _ _
      "Unusual transaction time" e1
    have e3 := reasons_step (features.getD 3 0 > 0.8) _ _ "High-risk location" e2
    have e4 := reasons_step (features.getD 4 0 > 0.7) _ _
      "Suspicious device characteristics" e3
    have e5 := reasons_step (features.getD 5 0 > 0.7) _ _
      "Unusual transaction frequency" e4
    have e6 := reasons_step (a > 0.7) _ _ "Transaction pattern anomaly detected" e5
    have e7 := reasons_step (p > 0.6) _ _
      "High fraud probability based on historical data" e6
    rw [e7]
    simp [List.isEmpty_iff, List.append_assoc]
  · norm_num [_generate_fraud_reasons]

/-- Claim C7: with both coordinates present the location risk is
`|lat| + |lng| / 180` (the division applying to the longitude term only),
it is not clamped and exceeds 1 at extreme coordinates; with no
geolocation it is 0.5. -/
theorem location_risk_formula :
    (∀ lat lng : ℚ, location_risk (some [("lat", lat), ("lng", lng)]) = |lat| + |lng| / 180) ∧
    location_risk none = 0.5 ∧
    location_risk (some [("lat", 100), ("lng", 100)]) > 1 := by
  have hform : ∀ lat lng : ℚ,
      location_risk (some [("lat", lat), ("lng", lng)]) = |lat| + |lng| / 180 := by
    intro lat lng
    simp [location_risk, dictGetD]
  refine ⟨hform, rfl, ?_⟩
  rw [hform 100 100]
  norm_num

/-- Claim C10: a non-empty geolocation map missing a coordinate defaults
that coordinate to 0 (so a lone latitude x gives risk |x| and a lone
longitude y gives |y| / 180), while an empty map falls back to the 0.5
absent-location default. -/
theorem location_risk_missing_keys :
    (∀ x : ℚ, location_risk (some [("lat", x)]) = |x|) ∧
    (∀ y : ℚ, location_risk (some [("lng", y)]) = |y| / 180) ∧
    location_risk (some []) = 0.5 ∧
    location_risk none = 0.5 ∧
    location_risk (some [("lat", 2)]) = 2 := by
  have hlat : ∀ x : ℚ, location_risk (some [("lat", x)]) = |x| := by
    intro x
    simp [location_risk, dictGetD]
  refine ⟨hlat, fun y => ?_, rfl, rfl, ?_⟩
  · simp [location_risk, dictGetD]
  · rw [hlat 2]
    norm_num

/-- When the scoring step succeeds and the classifier oracle only returns
probabilities in [0,1], both returned scores lie in [0,1] (the anomaly
score is clamped by construction). -/
lemma score_features_ok_bounds (env : ServiceEnv) (features : List ℚ) (a p : ℚ)
    (hp : ∀ f q, env.predictProba f = .ok q → 0 ≤ q ∧ q ≤ 1)
    (h : score_features env features = .ok (a, p)) :
    0 ≤ a ∧ a ≤ 1 ∧ 0 ≤ p ∧ p ≤ 1 := by
  cases hs : env.scalerTransform features with
  | error e => simp [score_features, hs] at h
  | ok fs =>
    cases hd : env.decisionFunction fs with
    | error e => simp [score_features, hs, hd] at h
    | ok raw =>
      by_cases hoff : env.offset = 0
      · simp [score_features, hs, hd, hoff] at h
      · cases hq : env.predictProba fs with
        | error e => simp [score_features, hs, hd, if_neg hoff, hq] at h
        | ok q =>
          simp only [score_features, hs, hd, if_neg hoff, hq, Except.ok.injEq,
            Prod.mk.injEq] at h
          obtain ⟨ha, hpq⟩ := h
          subst ha
          subst hpq
          refine ⟨le_max_left 0 _, max_le (by norm_num) (min_le_left 1 _), ?_, ?_⟩
          · exact (hp fs q hq).1
          · exact (hp fs q hq).2

/-- The tiering function can only return one of the three tier names. -/
lemma determine_risk_level_mem (s : ℚ) :
    _determine_risk_level s = "low" ∨ _determine_risk_level s = "medium" ∨
    _determine_risk_level s = "high" := by
  unfold _determine_risk_level
  split_ifs <;> simp

/-- Claim C8: whenever the classifier oracle only produces probabilities in
[0,1], every analysis result has a fraud score in [0,1] and a risk level
among "low", "medium" and "high" (the degraded default included). -/
theorem analyze_output_in_range (env : ServiceEnv) (t : TransactionInput)
    (hp : ∀ f q, env.predictProba f = .ok q → 0 ≤ q ∧ q ≤ 1) :
    (0 ≤ (analyze_transaction env t).fraud_score ∧
     (analyze_transaction env t).fraud_score ≤ 1) ∧
    ((analyze_transaction env t).risk_level = "low" ∨
     (analyze_transaction env t).risk_level = "medium" ∨
     (analyze_transaction env t).risk_level = "high") := by
  rw [analyze_transaction]
  cases hc : analyze_transaction_core env t with
  | error e =>
    exact ⟨⟨by norm_num [default_assessment], by norm_num [default_assessment]⟩,
      Or.inr (Or.inl rfl)⟩
  | ok r =>
    rw [analyze_transaction_core] at hc
    by_cases hready : is_ready env = true
    · rw [if_pos hready] at hc
      cases hsf : score_features env (_extract_features env t) with
      | error e => simp [hsf] at hc
      | ok ap =>
        obtain ⟨a, p⟩ := ap
        simp only [hsf, Except.ok.injEq] at hc
        subst hc
        obtain ⟨ha0, ha1, hp0, hp1⟩ :=
          score_features_ok_bounds env (_extract_features env t) a p hp hsf
        refine ⟨⟨?_, ?_⟩, determine_risk_level_mem _⟩
        · show (0 : ℚ) ≤ a * 0.4 + p * 0.6
          linarith
        · show a * 0.4 + p * 0.6 ≤ (1 : ℚ)
          linarith
    · rw [if_neg hready] at hc
      simp at hc

/-- Concrete instantiation of C8 in the healthy base environment. -/
theorem analyze_output_in_range_witness :
    (0 ≤ (analyze_transaction baseEnv baseT).fraud_score ∧
     (analyze_transaction baseEnv baseT).fraud_score ≤ 1) ∧
    ((analyze_transaction baseEnv baseT).risk_level = "low" ∨
     (analyze_transaction baseEnv baseT).risk_level = "medium" ∨
     (analyze_transaction baseEnv baseT).risk_level = "high") := by
  refine analyze_output_in_range baseEnv baseT ?_
  intro f q h
  simp only [baseEnv, Except.ok.injEq] at h
  subst h
  norm_num

/-- An environment sharing `baseEnv`'s fitted models and scaler but
differing in readiness bookkeeping, counter store, wall clock and random
draws. -/
def altEnv : ServiceEnv :=
  ⟨true, true, fun f => .ok f, fun _ => .ok 0, 1, fun _ => .ok (1/2),
   fun _ => .ok (some 100), 23, 6, 1, 1⟩

/-- Claim C9: the scoring step is a function of the feature vector and the
read-only model state alone — two environments agreeing on the scaler, the
isolation forest's decision function and offset, and the classifier yield
identical anomaly scores and classifier probabilities on the same feature
vector, whatever their other state. -/
theorem score_features_model_determined (env1 env2 : ServiceEnv) (features : List ℚ)
    (hscale : env1.scalerTransform = env2.scalerTransform)
    (hdec : env1.decisionFunction = env2.decisionFunction)
    (hoff : env1.offset = env2.offset)
    (hprob : env1.predictProba = env2.predictProba) :
    score_features env1 features = score_features env2 features := by
  simp only [score_features, hscale, hdec, hoff, hprob]

/-- Concrete instantiation of C9: `baseEnv` and `altEnv` differ in clock,
counter store and random draws but share the model state, so they score a
fixed feature vector identically. -/
theorem score_features_model_determined_witness :
    score_features baseEnv [1, 0, 0, 0.5, 0.5, 0.4, 0, 0] =
      score_features altEnv [1, 0, 0, 0.5, 0.5, 0.4, 0, 0] :=
  score_features_model_determined baseEnv altEnv [1, 0, 0, 0.5, 0.5, 0.4, 0, 0]
    rfl rfl rfl rfl

end FraudDetection
